import Mathlib

/-
  Shallow embedding of the Mesos master (src/master/master.cpp and
  src/master/master.hpp) for the claims under verification: the task
  state machine and status-update handling, rate-limit admission of
  framework messages, the removed-slaves LRU cache, the task validator
  chain and launch pipeline, task reconciliation, status-update
  acknowledgements, offer construction, framework re-registration,
  the post-recovery slave-removal timeout, and kill-task handling.

  Identifiers (FrameworkID, SlaveID, TaskID, OfferID, UUIDs, UPIDs) are
  opaque byte strings in the source; they are embedded as Nat.
-/

namespace MesosMaster

/-- Task states, from the TaskState protobuf enum used by the master. -/
inductive TaskState where
  | taskStaging
  | taskStarting
  | taskRunning
  | taskFinished
  | taskFailed
  | taskKilled
  | taskLost
  | taskError
deriving DecidableEq, Repr

/-- Modelled from the spec: `protobuf::isTerminalState` lives in
src/common/protobuf_utils.hpp which is not under src/; spec section 3
and section 6 state that FINISHED, FAILED, KILLED, LOST and ERROR are
the terminal states. -/
def isTerminalState : TaskState → Bool
  | .taskFinished => true
  | .taskFailed => true
  | .taskKilled => true
  | .taskLost => true
  | .taskError => true
  | _ => false

/-- One entry of a Task's `statuses` list (the fields `Master::updateTask`
reads or writes: the state and the potentially large `data` payload). -/
structure TaskStatus where
  state : TaskState
  data : String
deriving DecidableEq, Repr

/-- The Task protobuf fields used by the handlers under verification. -/
structure Task where
  taskId : Nat
  frameworkId : Nat
  slaveId : Nat
  executorId : Option Nat
  state : TaskState
  statusUpdateState : Option TaskState
  statusUpdateUuid : Option Nat
  statuses : List TaskStatus
deriving DecidableEq, Repr

/-- A StatusUpdate as received by `Master::updateTask`: the unacknowledged
status, the update's uuid, and the optional `latest_state` (set by
post-0.21.0 slaves). -/
structure StatusUpdate where
  status : TaskStatus
  uuid : Nat
  latestState : Option TaskState
deriving DecidableEq, Repr

/-- `Master::updateTask` (master.cpp:4784-4880). Returns the updated task
and whether `allocator->recoverResources` was invoked for it (the
`terminated` flag: first transition into a terminal state). -/
def updateTask (task : Task) (update : StatusUpdate) : Task × Bool :=
  let status := update.status
  -- Out-of-order guard: a terminal task ignores an update whose status
  -- state is non-terminal (master.cpp:4794-4801).
  if isTerminalState task.state && !isTerminalState status.state then
    (task, false)
  else
    let newState :=
      match update.latestState with
      | some s => s
      | none => status.state
    let terminated := !isTerminalState task.state && isTerminalState newState
    -- Coalesce a trailing status of the same state, append the new
    -- status, and clear its data field (master.cpp:4832-4844).
    let base :=
      match task.statuses.getLast? with
      | some last => if last.state = status.state
                     then task.statuses.dropLast
                     else task.statuses
      | none => task.statuses
    ({ task with
        state := newState
        statusUpdateState := some status.state
        statusUpdateUuid := some update.uuid
        statuses := base ++ [{ status with data := "" }] },
     terminated)

/-- `Master::removeTask` (master.cpp:4883-4921) recovers the task's
resources via the allocator exactly when the task is removed while in a
non-terminal state. -/
def removeTaskRecovers (task : Task) : Bool :=
  !isTerminalState task.state

/-- A task already in the terminal state TASK_FINISHED, used to evaluate
`updateTask` on a subsequent terminal update. -/
def c1Task : Task :=
  { taskId := 1
    frameworkId := 1
    slaveId := 1
    executorId := none
    state := .taskFinished
    statusUpdateState := some .taskFinished
    statusUpdateUuid := some 1
    statuses := [{ state := .taskFinished, data := "" }] }

/-- A status update carrying the terminal state TASK_KILLED. -/
def c1Update : StatusUpdate :=
  { status := { state := .taskKilled, data := "" }
    uuid := 2
    latestState := none }

/-- C1: counterexample. The claim says that once `task.state` is terminal
no subsequently handled status update changes it. But the out-of-order
guard in `Master::updateTask` only ignores updates whose status state is
non-terminal: on a task in TASK_FINISHED, a handled update with status
state TASK_KILLED (terminal) changes `task.state` to TASK_KILLED. -/
theorem C1_counterexample :
    isTerminalState c1Task.state = true ∧
    (updateTask c1Task c1Update).1.state ≠ c1Task.state ∧
    (updateTask c1Task c1Update).1.state = .taskKilled := by
  decide

/-- C1 (amended): once `task.state` is terminal, a handled status update
whose status state is non-terminal leaves the task unchanged and does not
recover resources; an update whose status state is terminal may still
change `task.state` (to `latest_state` when present, else the status
state); at every handled update, resources are recovered via the
allocator exactly when the task's state before the update is non-terminal
and its state after the update is terminal; and `removeTask` recovers the
task's resources exactly when the task is removed in a non-terminal
state. -/
theorem C1_amended (t : Task) (u : StatusUpdate) :
    (isTerminalState t.state = true → isTerminalState u.status.state = false →
      updateTask t u = (t, false)) ∧
    ((updateTask t u).2 =
      (!isTerminalState t.state && isTerminalState (updateTask t u).1.state)) ∧
    (removeTaskRecovers t = !isTerminalState t.state) := by
  refine ⟨?_, ?_, rfl⟩
  · intro hterm hnonterm
    simp [updateTask, hterm, hnonterm]
  · by_cases hg : isTerminalState t.state && !isTerminalState u.status.state
    · simp [updateTask, hg]
    · simp [updateTask, hg]

/-- C1 amended, witness: a TASK_RUNNING task is untouched by no update
here; instead instantiate the terminal-ignores-non-terminal clause at a
TASK_FINISHED task receiving a TASK_RUNNING status. -/
theorem C1_amended_witness :
    updateTask c1Task
      { status := { state := .taskRunning, data := "x" }
        uuid := 3
        latestState := none } = (c1Task, false) :=
  (C1_amended c1Task
      { status := { state := .taskRunning, data := "x" }
        uuid := 3
        latestState := none }).1 (by decide) (by decide)

/-- Association-list lookup, embedding the `hashmap` lookups of the
master (`contains` followed by `operator[]`). -/
def alookup {α β : Type} [DecidableEq α] : List (α × β) → α → Option β
  | [], _ => none
  | (k, v) :: rest, a => if k = a then some v else alookup rest a

/-- Association-list in-place update of an existing key. -/
def aupdate {α β : Type} [DecidableEq α] (l : List (α × β)) (k : α) (v : β) :
    List (α × β) :=
  l.map (fun p => if p.1 = k then (k, v) else p)

/-- `BoundedRateLimiter` (master.hpp): a per-principal limiter with an
optional capacity and the count of pending (not yet admitted) messages.
The `RateLimiter` token bucket itself is asynchronous and not modelled;
admission order is outside these claims. -/
structure BoundedRateLimiter where
  capacity : Option Nat
  messages : Nat
deriving DecidableEq, Repr

/-- The fields of a `MessageEvent` read by `Master::visit`:
`event.message->from` and `event.message->name`. -/
structure MessageEvent where
  sender : Nat
  name : String
deriving DecidableEq, Repr

/-- The master state consulted and mutated by `Master::visit(MessageEvent)`
(master.cpp:829-926): election/recovery status, `frameworks.principals`,
the per-principal limiters, the default limiter, and the metrics the
handler touches. -/
structure MasterAdmission where
  elected : Bool
  recoveredReady : Bool
  principals : List (Nat × Option String)
  limiters : List (String × Option BoundedRateLimiter)
  defaultLimiter : Option BoundedRateLimiter
  droppedMessages : Nat
  messagesReceived : List (String × Nat)
deriving DecidableEq, Repr

/-- What `Master::visit(MessageEvent)` did with the message. `throttled`
stands for incrementing the pending count and deferring the dispatch to
the limiter's `acquire()`; `capacityExceededMsg` is the
`FrameworkErrorMessage` sent back by `Master::exceededCapacity`. -/
inductive VisitOutcome where
  | droppedNotElected
  | droppedNotRecovered
  | throttled (principal : Option String)
  | capacityExceededMsg (text : String)
  | dispatched
deriving DecidableEq, Repr

/-- Increment `metrics.frameworks[p].messages_received` (the handler
CHECKs that the counter exists when the principal is known). -/
def bumpCounter (l : List (String × Nat)) (p : String) : List (String × Nat) :=
  l.map (fun q => if q.1 = p then (q.1, q.2 + 1) else q)

/-- The error text built by `Master::exceededCapacity`
(master.cpp:1019-1022). -/
def exceededCapacityText (name : String) (capacity : Nat) : String :=
  "Message " ++ name ++ " dropped: capacity(" ++ toString capacity ++
    ") exceeded"

/-- `Master::visit(const MessageEvent&)` (master.cpp:829-926) together
with `Master::exceededCapacity` (master.cpp:1003-1024). -/
def visitMessage (s0 : MasterAdmission) (e : MessageEvent) :
    MasterAdmission × VisitOutcome :=
  let isRegisteredFramework := (alookup s0.principals e.sender).isSome
  let principal : Option String :=
    match alookup s0.principals e.sender with
    | some p => p
    | none => none
  -- messages_received counter (master.cpp:853-859).
  let s :=
    match principal with
    | some p => { s0 with messagesReceived := bumpCounter s0.messagesReceived p }
    | none => s0
  if s.elected = false then
    ({ s with droppedMessages := s.droppedMessages + 1 }, .droppedNotElected)
  else if s.recoveredReady = false then
    ({ s with droppedMessages := s.droppedMessages + 1 }, .droppedNotRecovered)
  else
    match principal,
      (match principal with
       | some p => alookup s.limiters p
       | none => none) with
    | some p, some (some limiter) =>
      -- The framework's principal has a configured limiter.
      let bumped := { limiter with messages := limiter.messages + 1 }
      let throttledState := { s with limiters := aupdate s.limiters p (some bumped) }
      (match limiter.capacity with
       | none => (throttledState, .throttled (some p))
       | some cap =>
         if limiter.messages < cap then
           (throttledState, .throttled (some p))
         else
           (s, .capacityExceededMsg (exceededCapacityText e.name cap)))
    | some _, some none =>
      -- Principal listed in rate_limits with qps unset: not throttled.
      (s, .dispatched)
    | some _, none =>
      -- Registered framework whose principal has no limits entry:
      -- throttled by the default limiter when one is configured.
      (match s.defaultLimiter with
       | some dl =>
         let bumpedState := { s with defaultLimiter := some { dl with messages := dl.messages + 1 } }
         (match dl.capacity with
          | none => (bumpedState, .throttled none)
          | some cap =>
            if dl.messages < cap then
              (bumpedState, .throttled none)
            else
              (s, .capacityExceededMsg (exceededCapacityText e.name cap)))
       | none => (s, .dispatched))
    | none, _ =>
      -- A framework registered without a principal is throttled by the
      -- default limiter; a non-framework sender is dispatched directly.
      if isRegisteredFramework then
        (match s.defaultLimiter with
         | some dl =>
           let bumpedState := { s with defaultLimiter := some { dl with messages := dl.messages + 1 } }
           (match dl.capacity with
            | none => (bumpedState, .throttled none)
            | some cap =>
              if dl.messages < cap then
                (bumpedState, .throttled none)
              else
                (s, .capacityExceededMsg (exceededCapacityText e.name cap)))
         | none => (s, .dispatched))
      else
        (s, .dispatched)

/-- A master at capacity for principal P: the limiter has capacity 2 and
two pending messages. -/
def c2State : MasterAdmission :=
  { elected := true
    recoveredReady := true
    principals := [(1, some "P")]
    limiters := [("P", some { capacity := some 2, messages := 2 })]
    defaultLimiter := none
    droppedMessages := 0
    messagesReceived := [("P", 0)] }

/-- A framework message from the address registered for principal P. -/
def c2Event : MessageEvent :=
  { sender := 1, name := "LaunchTasksMessage" }

/-- C2: counterexample. At capacity the master does send the
FrameworkError with text "capacity(2) exceeded", but contrary to the
claim `metrics.dropped_messages` is not incremented: only the
not-elected and not-recovered paths increment it
(master.cpp:865,879); `Master::exceededCapacity` does not. -/
theorem C2_counterexample :
    (visitMessage c2State c2Event).2 =
      .capacityExceededMsg
        "Message LaunchTasksMessage dropped: capacity(2) exceeded" ∧
    (visitMessage c2State c2Event).1.droppedMessages ≠
      c2State.droppedMessages + 1 ∧
    (visitMessage c2State c2Event).1.droppedMessages =
      c2State.droppedMessages := by
  decide

/-- C2 (amended): for every framework MessageEvent whose resolved
principal has a configured rate limiter with capacity C, if the
limiter's pending message count is at least C then the master does not
dispatch the message to any handler and sends the sender a
FrameworkError whose text contains "capacity(C) exceeded"; the
`dropped_messages` counter is NOT incremented and the limiter's pending
count and the rest of the master state are unchanged, except that the
per-principal `messages_received` counter is incremented as for every
framework message. -/
theorem C2_amended (s : MasterAdmission) (e : MessageEvent) (p : String)
    (lim : BoundedRateLimiter) (cap : Nat)
    (hel : s.elected = true) (hrec : s.recoveredReady = true)
    (hp : alookup s.principals e.sender = some (some p))
    (hl : alookup s.limiters p = some (some lim))
    (hcap : lim.capacity = some cap)
    (hfull : cap ≤ lim.messages) :
    visitMessage s e =
      ({ s with messagesReceived := bumpCounter s.messagesReceived p },
       .capacityExceededMsg (exceededCapacityText e.name cap)) := by
  simp [visitMessage, hp, hl, hcap, hel, hrec, Nat.not_lt.mpr hfull]

/-- C2 amended, witness: the concrete at-capacity master drops the
message with the capacity(2) error. -/
theorem C2_amended_witness :
    visitMessage c2State c2Event =
      ({ c2State with
          messagesReceived := bumpCounter c2State.messagesReceived "P" },
       .capacityExceededMsg (exceededCapacityText c2Event.name 2)) :=
  C2_amended c2State c2Event "P" { capacity := some 2, messages := 2 } 2
    (by decide) (by decide) (by decide) (by decide) (by decide) (by decide)

/-- Modelled from the spec: `Cache<SlaveID, Nothing>` (stout's LRU cache
backing `slaves.removed`, master.hpp:545) is not under src/. Per spec
sections 3 and 5 it is a bounded LRU set whose eviction is by insertion
order. Entries are kept most-recent-first. -/
structure Cache where
  capacity : Nat
  entries : List Nat
deriving DecidableEq, Repr

/-- `Cache::put`: (re)insert a key at the most-recent position, evicting
the least-recently used entry when the bound is exceeded. -/
def cachePut (c : Cache) (id : Nat) : Cache :=
  { c with entries := (id :: c.entries.filter (fun x => x ≠ id)).take c.capacity }

/-- `Cache::erase`: explicitly drop a key. -/
def cacheErase (c : Cache) (id : Nat) : Cache :=
  { c with entries := c.entries.filter (fun x => x ≠ id) }

/-- The disjoint slave lifecycle sets of `Master::Slaves`
(master.hpp:509-559). The `registered` map is reduced to its key set. -/
structure SlavesState where
  recovered : List Nat
  reregistering : List Nat
  registered : List Nat
  removing : List Nat
  removed : Cache
deriving DecidableEq, Repr

/-- Insert into a hashset, embedding `hashset::insert`. -/
def hsInsert (l : List Nat) (id : Nat) : List Nat :=
  if l.contains id then l else id :: l

/-- Erase from a hashset, embedding `hashset::erase`. -/
def hsErase (l : List Nat) (id : Nat) : List Nat :=
  l.filter (fun x => x ≠ id)

/-- The effect of `Master::addSlave` on the slave lifecycle sets
(master.cpp:4576-4577): the id is explicitly erased from the removed
cache and inserted into `registered`. -/
def addSlaveSets (s : SlavesState) (id : Nat) : SlavesState :=
  { s with
      removed := cacheErase s.removed id
      registered := hsInsert s.registered id }

/-- The effect of `Master::removeSlave` on the slave lifecycle sets
(master.cpp:4710-4713): mark as removing, unregister, and put into the
removed cache. -/
def removeSlaveSets (s : SlavesState) (id : Nat) : SlavesState :=
  { s with
      removing := hsInsert s.removing id
      registered := hsErase s.registered id
      removed := cachePut s.removed id }

/-- `Master::Slaves::transitioning` (master.hpp:547-558). -/
def transitioning (s : SlavesState) (slaveId : Option Nat) : Bool :=
  match slaveId with
  | some id =>
    s.recovered.contains id || s.reregistering.contains id ||
      s.removing.contains id
  | none =>
    !s.recovered.isEmpty || !s.reregistering.isEmpty || !s.removing.isEmpty

/-- A slaves state whose removed cache holds slave 7, far below the
capacity bound. -/
def c3State : SlavesState :=
  { recovered := []
    reregistering := []
    registered := []
    removing := []
    removed := { capacity := 32, entries := [7] } }

/-- C3: counterexample. The claim says no master operation explicitly
removes a member from the removed LRU set. But `Master::addSlave`
(master.cpp:4576) explicitly erases the re-admitted slave's id from it:
slave 7 is a member beforehand and gone afterwards although the cache was
far below capacity, so no eviction occurred. -/
theorem C3_counterexample :
    7 ∈ c3State.removed.entries ∧
    7 ∉ (addSlaveSets c3State 7).removed.entries ∧
    c3State.removed.entries.length < c3State.removed.capacity := by
  decide

/-- C3 (amended): the removed LRU set shrinks only by capacity eviction
on insertion or by `Master::addSlave` explicitly erasing the id of the
slave being (re-)admitted. `cacheErase` removes exactly the erased id, a
`cachePut` can drop another member only when the cache is already at
capacity, `addSlave` erases exactly the admitted id from the set, and
`removeSlave` only inserts into it. -/
theorem C3_amended (c : Cache) (x id : Nat) (s : SlavesState) :
    (x ∈ (cacheErase c id).entries ↔ x ∈ c.entries ∧ x ≠ id) ∧
    (x ∈ c.entries → x ≠ id →
      x ∈ (cachePut c id).entries ∨ c.capacity ≤ c.entries.length) ∧
    ((addSlaveSets s id).removed = cacheErase s.removed id) ∧
    ((removeSlaveSets s id).removed = cachePut s.removed id) := by
  refine ⟨?_, ?_, rfl, rfl⟩
  · simp [cacheErase]
  · intro hx hne
    by_cases hcap : c.capacity ≤ c.entries.length
    · exact Or.inr hcap
    · left
      have hlen : (id :: c.entries.filter (fun y => y ≠ id)).length ≤ c.capacity := by
        have := List.length_filter_le (fun y => decide (y ≠ id)) c.entries
        simp only [List.length_cons]
        omega
      have htake : (id :: c.entries.filter (fun y => y ≠ id)).take c.capacity =
          id :: c.entries.filter (fun y => y ≠ id) :=
        List.take_of_length_le hlen
      simp only [cachePut]
      rw [htake]
      simp [hx, hne]

/-- C3 amended, witness: instantiated at the concrete state, a put on a
below-capacity cache keeps the other member. -/
theorem C3_amended_witness :
    8 ∈ (cachePut { capacity := 32, entries := [8] } 9).entries ∨
      (32 : Nat) ≤ ([8] : List Nat).length :=
  (C3_amended { capacity := 32, entries := [8] } 8 9 c3State).2.1
    (by decide) (by decide)

/-- Source field of a master-generated status update. -/
inductive UpdateSource where
  | sourceMaster
  | sourceSlave
  | sourceExecutor
deriving DecidableEq, Repr

/-- Reason field of a master-generated status update (only the reasons
appearing in the handlers under verification). -/
inductive UpdateReason where
  | reasonReconciliation
  | reasonTaskInvalid
  | reasonTaskUnauthorized
  | reasonInvalidOffers
  | reasonSlaveRemoved
  | reasonSlaveDisconnected
deriving DecidableEq, Repr

/-- A status update created by the master via
`protobuf::createStatusUpdate` and sent to a framework. -/
structure MasterUpdate where
  frameworkId : Nat
  slaveId : Option Nat
  taskId : Nat
  state : TaskState
  source : UpdateSource
  reason : Option UpdateReason
deriving DecidableEq, Repr

/-- The Framework fields used by reconciliation, kill-task and
acknowledgement handling: id, registered pid, `pendingTasks` (task id to
the TaskInfo's slave id) and launched `tasks`. -/
structure Framework where
  id : Nat
  pid : Nat
  pendingTasks : List (Nat × Nat)
  tasks : List Task
deriving DecidableEq, Repr

/-- `Framework::getTask`. -/
def getTask (fw : Framework) (taskId : Nat) : Option Task :=
  fw.tasks.find? (fun t => t.taskId = taskId)

/-- The latest cached state of a task:
`task->has_status_update_state() ? task->status_update_state() :
task->state()`. -/
def latestTaskState (t : Task) : TaskState :=
  t.statusUpdateState.getD t.state

/-- One requested TaskStatus of a `ReconcileTasks` message: task id and
optional slave id. -/
structure ReconcileTaskStatus where
  taskId : Nat
  slaveId : Option Nat
deriving DecidableEq, Repr

/-- The per-status decision of explicit reconciliation
(`Master::_reconcileTasks`, master.cpp:3761-3826): the optional status
update sent for one requested TaskStatus. -/
def reconcileStatus (fw : Framework) (slaves : SlavesState)
    (status : ReconcileTaskStatus) : Option MasterUpdate :=
  match alookup fw.pendingTasks status.taskId with
  | some sid =>
    -- (1) Task is known, but pending: TASK_STAGING.
    some { frameworkId := fw.id, slaveId := some sid, taskId := status.taskId,
           state := .taskStaging, source := .sourceMaster,
           reason := some .reasonReconciliation }
  | none =>
    match getTask fw status.taskId with
    | some task =>
      -- (2) Task is known: send the latest status update state.
      some { frameworkId := fw.id, slaveId := some task.slaveId,
             taskId := task.taskId, state := latestTaskState task,
             source := .sourceMaster, reason := some .reasonReconciliation }
    | none =>
      if (match status.slaveId with
          | some sid => slaves.registered.contains sid
          | none => false) then
        -- (3) Task is unknown, slave is registered: TASK_LOST.
        some { frameworkId := fw.id, slaveId := status.slaveId,
               taskId := status.taskId, state := .taskLost,
               source := .sourceMaster, reason := some .reasonReconciliation }
      else if transitioning slaves status.slaveId then
        -- (4) Task is unknown, slave is transitionary: no-op.
        none
      else
        -- (5) Task is unknown, slave is unknown: TASK_LOST.
        some { frameworkId := fw.id, slaveId := status.slaveId,
               taskId := status.taskId, state := .taskLost,
               source := .sourceMaster, reason := some .reasonReconciliation }

/-- Implicit reconciliation (`Master::_reconcileTasks`,
master.cpp:3682-3742): one TASK_STAGING update per pending task and one
latest-state update per known task. -/
def reconcileTasksImplicit (fw : Framework) : List MasterUpdate :=
  fw.pendingTasks.map (fun p =>
    { frameworkId := fw.id, slaveId := some p.2, taskId := p.1,
      state := .taskStaging, source := .sourceMaster,
      reason := some .reasonReconciliation }) ++
  fw.tasks.map (fun t =>
    { frameworkId := fw.id, slaveId := some t.slaveId, taskId := t.taskId,
      state := latestTaskState t, source := .sourceMaster,
      reason := some .reasonReconciliation })

/-- `Master::_reconcileTasks` (master.cpp:3676-3841): empty statuses mean
implicit reconciliation, non-empty statuses are decided one by one. -/
def reconcileTasksHandler (fw : Framework) (slaves : SlavesState)
    (statuses : List ReconcileTaskStatus) : List MasterUpdate :=
  match statuses with
  | [] => reconcileTasksImplicit fw
  | _ => statuses.filterMap (reconcileStatus fw slaves)

/-- C5: for every explicitly reconciled TaskStatus the master decides:
pending task, TASK_STAGING; known task, the latest cached state; unknown
task with a registered slave, TASK_LOST; unknown task with a
transitional slave, no update; unknown task with an unknown slave,
TASK_LOST. For a single unknown task id with no slave id and no
transitional slaves, exactly one TASK_LOST update with source MASTER and
reason RECONCILIATION is sent. -/
theorem C5_explicit_reconciliation (fw : Framework) (slaves : SlavesState)
    (st : ReconcileTaskStatus) (tx : Nat) :
    (∀ sid, alookup fw.pendingTasks st.taskId = some sid →
      reconcileStatus fw slaves st =
        some { frameworkId := fw.id, slaveId := some sid,
               taskId := st.taskId, state := .taskStaging,
               source := .sourceMaster,
               reason := some .reasonReconciliation }) ∧
    (∀ t, alookup fw.pendingTasks st.taskId = none →
      getTask fw st.taskId = some t →
      reconcileStatus fw slaves st =
        some { frameworkId := fw.id, slaveId := some t.slaveId,
               taskId := t.taskId, state := latestTaskState t,
               source := .sourceMaster,
               reason := some .reasonReconciliation }) ∧
    (∀ sid, alookup fw.pendingTasks st.taskId = none →
      getTask fw st.taskId = none → st.slaveId = some sid →
      slaves.registered.contains sid = true →
      reconcileStatus fw slaves st =
        some { frameworkId := fw.id, slaveId := some sid,
               taskId := st.taskId, state := .taskLost,
               source := .sourceMaster,
               reason := some .reasonReconciliation }) ∧
    (alookup fw.pendingTasks st.taskId = none →
      getTask fw st.taskId = none →
      (match st.slaveId with
       | some sid => slaves.registered.contains sid
       | none => false) = false →
      transitioning slaves st.slaveId = true →
      reconcileStatus fw slaves st = none) ∧
    (alookup fw.pendingTasks st.taskId = none →
      getTask fw st.taskId = none →
      (match st.slaveId with
       | some sid => slaves.registered.contains sid
       | none => false) = false →
      transitioning slaves st.slaveId = false →
      reconcileStatus fw slaves st =
        some { frameworkId := fw.id, slaveId := st.slaveId,
               taskId := st.taskId, state := .taskLost,
               source := .sourceMaster,
               reason := some .reasonReconciliation }) ∧
    (alookup fw.pendingTasks tx = none → getTask fw tx = none →
      transitioning slaves none = false →
      reconcileTasksHandler fw slaves [{ taskId := tx, slaveId := none }] =
        [{ frameworkId := fw.id, slaveId := none, taskId := tx,
           state := .taskLost, source := .sourceMaster,
           reason := some .reasonReconciliation }]) := by
  refine ⟨?_, ?_, ?_, ?_, ?_, ?_⟩
  · intro sid hpend
    simp [reconcileStatus, hpend]
  · intro t hpend htask
    simp [reconcileStatus, hpend, htask]
  · intro sid hpend htask hsid hreg
    simp only [reconcileStatus, hpend, htask, hsid]
    rw [hreg]
    simp
  · intro hpend htask hreg htrans
    simp only [reconcileStatus, hpend, htask]
    rw [hreg]
    simp [htrans]
  · intro hpend htask hreg htrans
    simp only [reconcileStatus, hpend, htask]
    rw [hreg]
    simp [htrans]
  · intro hpend htask htrans
    simp [reconcileTasksHandler, reconcileStatus, hpend, htask, htrans]

/-- An empty framework and a slaves state with one registered and no
transitional slaves, for the concrete reconciliation scenario. -/
def c5Framework : Framework :=
  { id := 1, pid := 10, pendingTasks := [], tasks := [] }

/-- Slaves state for the C5 scenario. -/
def c5Slaves : SlavesState :=
  { recovered := []
    reregistering := []
    registered := [5]
    removing := []
    removed := { capacity := 32, entries := [] } }

/-- C5 witness: reconciling the single unknown task 42 with no slave id
yields exactly one TASK_LOST update from the master with reason
RECONCILIATION. -/
theorem C5_explicit_reconciliation_witness :
    reconcileTasksHandler c5Framework c5Slaves
        [{ taskId := 42, slaveId := none }] =
      [{ frameworkId := 1, slaveId := none, taskId := 42,
         state := .taskLost, source := .sourceMaster,
         reason := some .reasonReconciliation }] :=
  (C5_explicit_reconciliation c5Framework c5Slaves
      { taskId := 42, slaveId := none } 42).2.2.2.2.2
    (by decide) (by decide) (by decide)

/-- The Slave fields used by acknowledgement and kill-task handling:
registered pid, connection status, the tasks it runs and the
`killedTasks` multimap. -/
structure SlaveRec where
  pid : Nat
  connected : Bool
  tasks : List Task
  killedTasks : List (Nat × Nat)
deriving DecidableEq, Repr

/-- `Slave::getTask(frameworkId, taskId)`. -/
def slaveGetTask (sl : SlaveRec) (frameworkId taskId : Nat) : Option Task :=
  sl.tasks.find? (fun t => t.frameworkId = frameworkId && t.taskId = taskId)

/-- The master state consulted by
`Master::statusUpdateAcknowledgement`: registered frameworks and
registered slaves, keyed by id. -/
structure AckState where
  frameworks : List (Nat × Framework)
  slaves : List (Nat × SlaveRec)
deriving DecidableEq, Repr

/-- What the acknowledgement handler did: the five drop cases, or
forwarding to the slave (with whether the task was removed first). -/
inductive AckOutcome where
  | droppedUnknownFramework
  | droppedWrongSender
  | droppedUnknownSlave
  | droppedDisconnectedSlave
  | droppedNoUpdateState
  | forwarded (taskRemoved : Bool)
deriving DecidableEq, Repr

/-- Whether an outcome is one of the drop cases. -/
def isDropOutcome : AckOutcome → Bool
  | .forwarded _ => false
  | _ => true

/-- `Master::removeTask` reached from the acknowledgement handler:
the task is removed from both the framework and the slave. -/
def removeTaskFromState (m : AckState) (frameworkId taskId : Nat) : AckState :=
  { frameworks := m.frameworks.map (fun p =>
      if p.1 = frameworkId then
        (p.1, { p.2 with tasks := p.2.tasks.filter (fun t =>
          !(t.frameworkId = frameworkId && t.taskId = taskId)) })
      else p)
    slaves := m.slaves.map (fun p =>
      (p.1, { p.2 with tasks := p.2.tasks.filter (fun t =>
        !(t.frameworkId = frameworkId && t.taskId = taskId)) })) }

/-- `Master::statusUpdateAcknowledgement` (master.cpp:2950-3050). -/
def statusUpdateAcknowledgement (m : AckState)
    (sender slaveId frameworkId taskId uuid : Nat) : AckState × AckOutcome :=
  match alookup m.frameworks frameworkId with
  | none => (m, .droppedUnknownFramework)
  | some fw =>
    if sender ≠ fw.pid then (m, .droppedWrongSender)
    else
      match alookup m.slaves slaveId with
      | none => (m, .droppedUnknownSlave)
      | some sl =>
        if sl.connected = false then (m, .droppedDisconnectedSlave)
        else
          match slaveGetTask sl frameworkId taskId with
          | some task =>
            match task.statusUpdateState with
            | none =>
              -- 0.20.0 slave compatibility: no update state recorded.
              (m, .droppedNoUpdateState)
            | some sus =>
              if isTerminalState sus && task.statusUpdateUuid == some uuid then
                (removeTaskFromState m frameworkId taskId, .forwarded true)
              else
                (m, .forwarded false)
          | none => (m, .forwarded false)

/-- C6: an acknowledgement is dropped (without changing master state) iff
the framework is unknown, the sender is not the framework's registered
pid, the slave is unknown or disconnected, or the task exists but has no
recorded status update state; otherwise it is forwarded to the slave, and
the task is removed exactly when its recorded status update state is
terminal and the acknowledged uuid equals the last recorded one. -/
theorem C6_acknowledgement (m : AckState)
    (sender slaveId frameworkId taskId uuid : Nat) :
    (isDropOutcome
        (statusUpdateAcknowledgement m sender slaveId frameworkId taskId
          uuid).2 = true ↔
      (alookup m.frameworks frameworkId = none ∨
       (∃ fw, alookup m.frameworks frameworkId = some fw ∧ sender ≠ fw.pid) ∨
       alookup m.slaves slaveId = none ∨
       (∃ sl, alookup m.slaves slaveId = some sl ∧ sl.connected = false) ∨
       (∃ sl task, alookup m.slaves slaveId = some sl ∧
          slaveGetTask sl frameworkId taskId = some task ∧
          task.statusUpdateState = none))) ∧
    (isDropOutcome
        (statusUpdateAcknowledgement m sender slaveId frameworkId taskId
          uuid).2 = true →
      (statusUpdateAcknowledgement m sender slaveId frameworkId taskId
          uuid).1 = m) ∧
    (∀ fw sl, alookup m.frameworks frameworkId = some fw →
      sender = fw.pid → alookup m.slaves slaveId = some sl →
      sl.connected = true → slaveGetTask sl frameworkId taskId = none →
      statusUpdateAcknowledgement m sender slaveId frameworkId taskId uuid =
        (m, .forwarded false)) ∧
    (∀ fw sl task sus, alookup m.frameworks frameworkId = some fw →
      sender = fw.pid → alookup m.slaves slaveId = some sl →
      sl.connected = true →
      slaveGetTask sl frameworkId taskId = some task →
      task.statusUpdateState = some sus →
      ((isTerminalState sus && task.statusUpdateUuid == some uuid) = true →
        statusUpdateAcknowledgement m sender slaveId frameworkId taskId
            uuid =
          (removeTaskFromState m frameworkId taskId, .forwarded true)) ∧
      ((isTerminalState sus && task.statusUpdateUuid == some uuid) = false →
        statusUpdateAcknowledgement m sender slaveId frameworkId taskId
            uuid =
          (m, .forwarded false))) := by
  refine ⟨?_, ?_, ?_, ?_⟩
  · cases hfw : alookup m.frameworks frameworkId with
    | none => simp [statusUpdateAcknowledgement, hfw, isDropOutcome]
    | some fw =>
      by_cases hs : sender = fw.pid
      · cases hsl : alookup m.slaves slaveId with
        | none => simp [statusUpdateAcknowledgement, hfw, hs, hsl, isDropOutcome]
        | some sl =>
          by_cases hc : sl.connected = false
          · simp [statusUpdateAcknowledgement, hfw, hs, hsl, hc, isDropOutcome]
          · cases ht : slaveGetTask sl frameworkId taskId with
            | none =>
              simp [statusUpdateAcknowledgement, hfw, hs, hsl, hc, ht,
                isDropOutcome]
            | some task =>
              cases hst : task.statusUpdateState with
              | none =>
                simp [statusUpdateAcknowledgement, hfw, hs, hsl, hc, ht,
                  hst, isDropOutcome]
              | some sus =>
                by_cases hterm :
                  (isTerminalState sus && task.statusUpdateUuid == some uuid)
                    = true
                · simp [statusUpdateAcknowledgement, hfw, hs, hsl, hc, ht,
                    hst, hterm, isDropOutcome]
                · simp only [Bool.not_eq_true] at hterm
                  simp [statusUpdateAcknowledgement, hfw, hs, hsl, hc, ht,
                    hst, hterm, isDropOutcome]
      · simp [statusUpdateAcknowledgement, hfw, hs, isDropOutcome]
  · intro hdrop
    revert hdrop
    unfold statusUpdateAcknowledgement
    cases hfw : alookup m.frameworks frameworkId with
    | none => simp
    | some fw =>
      by_cases hs : sender = fw.pid
      · cases hsl : alookup m.slaves slaveId with
        | none => simp [hs]
        | some sl =>
          by_cases hc : sl.connected = false
          · simp [hs, hc]
          · cases ht : slaveGetTask sl frameworkId taskId with
            | none => simp [hs, hc, ht, isDropOutcome]
            | some task =>
              cases hst : task.statusUpdateState with
              | none => simp [hs, hc, ht, hst]
              | some sus =>
                by_cases hterm :
                  (isTerminalState sus && task.statusUpdateUuid == some uuid)
                    = true
                · simp [hs, hc, ht, hst, hterm, isDropOutcome]
                · simp only [Bool.not_eq_true] at hterm
                  simp [hs, hc, ht, hst, hterm, isDropOutcome]
      · simp [hs]
  · intro fw sl hfw hs hsl hc ht
    simp [statusUpdateAcknowledgement, hfw, hs, hsl, hc, ht]
  · intro fw sl task sus hfw hs hsl hc ht hst
    constructor
    · intro hterm
      simp [statusUpdateAcknowledgement, hfw, hs, hsl, hc, ht, hst, hterm]
    · intro hterm
      simp [statusUpdateAcknowledgement, hfw, hs, hsl, hc, ht, hst, hterm]

/-- A one-framework, one-slave master with a terminal,
uuid-matching task, for the C6 witness. -/
def c6Task : Task :=
  { taskId := 3
    frameworkId := 1
    slaveId := 2
    executorId := none
    state := .taskFinished
    statusUpdateState := some .taskFinished
    statusUpdateUuid := some 77
    statuses := [] }

/-- Framework record for the C6 witness. -/
def c6Framework : Framework :=
  { id := 1, pid := 10, pendingTasks := [], tasks := [c6Task] }

/-- Slave record for the C6 witness. -/
def c6Slave : SlaveRec :=
  { pid := 20, connected := true, tasks := [c6Task], killedTasks := [] }

/-- Master state for the C6 witness. -/
def c6State : AckState :=
  { frameworks := [(1, c6Framework)], slaves := [(2, c6Slave)] }

/-- C6 witness: acknowledging the terminal update with the matching uuid
forwards the acknowledgement and removes the task. -/
theorem C6_acknowledgement_witness :
    statusUpdateAcknowledgement c6State 10 2 1 3 77 =
      (removeTaskFromState c6State 1 3, .forwarded true) :=
  ((C6_acknowledgement c6State 10 2 1 3 77).2.2.2
      c6Framework c6Slave c6Task .taskFinished
      (by decide) (by decide) (by decide) (by decide) (by decide)
      (by decide)).1 (by decide)

/-- The master state consulted by `Master::killTask`: registered
frameworks, registered slave records, and the slave lifecycle sets used
by the reconciliation it may delegate to. -/
structure KillState where
  frameworks : List (Nat × Framework)
  slaves : List (Nat × SlaveRec)
  lifecycle : SlavesState
deriving DecidableEq, Repr

/-- What `Master::killTask` did. `killedPending` carries the TASK_KILLED
update sent without contacting any slave; `reconciled` carries the
updates of the explicit reconciliation it delegates to;
`checkFailedUnknownSlave` is the `CHECK(slave != NULL)` abort. -/
inductive KillOutcome where
  | ignoredUnknownFramework
  | ignoredWrongSender
  | killedPending (update : MasterUpdate)
  | reconciled (updates : List MasterUpdate)
  | checkFailedUnknownSlave
  | killSentToSlave (slaveId : Nat)
  | killDeferred (slaveId : Nat)
deriving DecidableEq, Repr

/-- `framework->pendingTasks.erase(taskId)`. -/
def erasePending (fw : Framework) (taskId : Nat) : Framework :=
  { fw with pendingTasks := fw.pendingTasks.filter (fun p => p.1 ≠ taskId) }

/-- `slave->killedTasks.put(frameworkId, taskId)` (a multimap insert). -/
def putKilled (sl : SlaveRec) (frameworkId taskId : Nat) : SlaveRec :=
  { sl with killedTasks := sl.killedTasks ++ [(frameworkId, taskId)] }

/-- The TASK_KILLED update sent for a killed pending task
(master.cpp:2896-2902). -/
def killedPendingUpdate (frameworkId taskId : Nat) : MasterUpdate :=
  { frameworkId := frameworkId, slaveId := none, taskId := taskId,
    state := .taskKilled, source := .sourceMaster, reason := none }

/-- `Master::killTask` (master.cpp:2866-2947). -/
def killTask (m : KillState) (sender frameworkId taskId : Nat) :
    KillState × KillOutcome :=
  match alookup m.frameworks frameworkId with
  | none => (m, .ignoredUnknownFramework)
  | some fw =>
    if sender ≠ fw.pid then (m, .ignoredWrongSender)
    else if (alookup fw.pendingTasks taskId).isSome then
      -- Pending task: erase it and send TASK_KILLED from the master.
      ({ m with frameworks :=
           aupdate m.frameworks frameworkId (erasePending fw taskId) },
       .killedPending (killedPendingUpdate frameworkId taskId))
    else
      match getTask fw taskId with
      | none =>
        -- Unknown task: perform explicit reconciliation for this id.
        (m, .reconciled (reconcileTasksHandler fw m.lifecycle
          [{ taskId := taskId, slaveId := none }]))
      | some task =>
        match alookup m.slaves task.slaveId with
        | none => (m, .checkFailedUnknownSlave)
        | some sl =>
          -- Record in killedTasks unconditionally; the slave may be
          -- partitioned or disconnected without the master knowing.
          let slaves2 := aupdate m.slaves task.slaveId (putKilled sl frameworkId taskId)
          let m2 := { m with slaves := slaves2 }
          if sl.connected then (m2, .killSentToSlave task.slaveId)
          else (m2, .killDeferred task.slaveId)

/-- C10: for a KillTask from the framework's registered address, a
pending task is erased and answered with a master-sourced TASK_KILLED
without contacting any slave; an unknown task is handled as explicit
reconciliation for that task id; a known task is added to its slave's
killed-tasks set unconditionally, and the KillTask message reaches the
slave only when it is connected (deferred to re-registration
reconciliation otherwise). -/
theorem C10_killTask (m : KillState) (sender frameworkId taskId : Nat) :
    (∀ fw, alookup m.frameworks frameworkId = some fw → sender = fw.pid →
      (alookup fw.pendingTasks taskId).isSome = true →
      killTask m sender frameworkId taskId =
        ({ m with frameworks :=
             aupdate m.frameworks frameworkId (erasePending fw taskId) },
         .killedPending (killedPendingUpdate frameworkId taskId))) ∧
    (∀ fw, alookup m.frameworks frameworkId = some fw → sender = fw.pid →
      (alookup fw.pendingTasks taskId).isSome = false →
      getTask fw taskId = none →
      killTask m sender frameworkId taskId =
        (m, .reconciled (reconcileTasksHandler fw m.lifecycle
          [{ taskId := taskId, slaveId := none }]))) ∧
    (∀ fw task sl, alookup m.frameworks frameworkId = some fw →
      sender = fw.pid →
      (alookup fw.pendingTasks taskId).isSome = false →
      getTask fw taskId = some task →
      alookup m.slaves task.slaveId = some sl →
      (killTask m sender frameworkId taskId).1 =
        { m with slaves :=
            aupdate m.slaves task.slaveId (putKilled sl frameworkId taskId) } ∧
      (killTask m sender frameworkId taskId).2 =
        (if sl.connected then .killSentToSlave task.slaveId
         else .killDeferred task.slaveId)) := by
  refine ⟨?_, ?_, ?_⟩
  · intro fw hfw hs hpend
    simp [killTask, hfw, hs, hpend]
  · intro fw hfw hs hpend htask
    simp [killTask, hfw, hs, hpend, htask]
  · intro fw task sl hfw hs hpend htask hsl
    refine ⟨?_, ?_⟩
    · by_cases hc : sl.connected = true
      · simp [killTask, hfw, hs, hpend, htask, hsl, hc]
      · simp only [Bool.not_eq_true] at hc
        simp [killTask, hfw, hs, hpend, htask, hsl, hc]
    · by_cases hc : sl.connected = true
      · simp [killTask, hfw, hs, hpend, htask, hsl, hc]
      · simp only [Bool.not_eq_true] at hc
        simp [killTask, hfw, hs, hpend, htask, hsl, hc]

/-- Framework record with a pending task, for the C10 witness. -/
def c10Framework : Framework :=
  { id := 1, pid := 10, pendingTasks := [(4, 2)], tasks := [] }

/-- A master with one framework holding a pending task, for the C10
witness. -/
def c10State : KillState :=
  { frameworks := [(1, c10Framework)]
    slaves := []
    lifecycle := { recovered := [], reregistering := [], registered := [],
                   removing := [], removed := { capacity := 32, entries := [] } } }

/-- C10 witness: killing the pending task 4 erases it and emits a
master-sourced TASK_KILLED update. -/
theorem C10_killTask_witness :
    killTask c10State 10 1 4 =
      ({ c10State with
         frameworks := aupdate c10State.frameworks 1 (erasePending c10Framework 4) },
       .killedPending (killedPendingUpdate 1 4)) :=
  (C10_killTask c10State 10 1 4).1 c10Framework
    (by decide) (by decide) (by decide)

/-- The Framework fields involved in re-registration of an already
registered framework id: the registered pid, and the offers, tasks and
re-registration time that the rejection branch must leave alone. -/
structure Fw8 where
  pid : Nat
  offers : List Nat
  tasks : List Nat
  reregisteredTime : Nat
  connected : Bool
  active : Bool
deriving DecidableEq, Repr

/-- Master state for `Master::_reregisterFramework` past validation:
registered frameworks by id and the current clock. -/
structure Rereg8State where
  registered : List (Nat × Fw8)
  now : Nat
deriving DecidableEq, Repr

/-- Which branch of `Master::_reregisterFramework` ran for a registered
framework id. The failover and same-pid reactivation branches are
summarized by their tags: the claim under verification concerns only the
rejection branch, which is modelled in full. -/
inductive Rereg8Outcome where
  | errorFrameworkFailedOver (target : Nat) (text : String)
  | failoverPath
  | reactivatePath
  | recoveredMasterPath
deriving DecidableEq, Repr

/-- `framework->reregisteredTime = Clock::now()` (master.cpp:1542). -/
def touchRereg (fw : Fw8) (now : Nat) : Fw8 :=
  { fw with reregisteredTime := now }

/-- `Master::_reregisterFramework` for an already known framework id
(master.cpp:1528-1596): on `failover` take the failover path; otherwise a
request from an address other than the registered pid is answered with
FrameworkError("Framework failed over") and nothing else changes; a
request from the registered pid reactivates the framework. -/
def reregisterFrameworkRegistered (st : Rereg8State) (sender fId : Nat)
    (failover : Bool) : Rereg8State × Rereg8Outcome :=
  match alookup st.registered fId with
  | none => (st, .recoveredMasterPath)
  | some fw =>
    let st2 := { st with registered := aupdate st.registered fId (touchRereg fw st.now) }
    if failover then (st2, .failoverPath)
    else if sender ≠ fw.pid then
      (st2, .errorFrameworkFailedOver sender "Framework failed over")
    else (st2, .reactivatePath)

/-- C8: a re-registration of a registered framework id with failover set
to false coming from an address different from the registered pid is
answered with a FrameworkError whose message is "Framework failed over",
and the framework's registered address, offers and tasks are unchanged
(only `reregisteredTime` is refreshed); the request is not silently
accepted. -/
theorem C8_reregister_reject (st : Rereg8State) (sender fId : Nat) (fw : Fw8)
    (hfw : alookup st.registered fId = some fw)
    (hsender : sender ≠ fw.pid) :
    reregisterFrameworkRegistered st sender fId false =
      ({ st with registered := aupdate st.registered fId (touchRereg fw st.now) },
       .errorFrameworkFailedOver sender "Framework failed over") ∧
    (touchRereg fw st.now).pid = fw.pid ∧
    (touchRereg fw st.now).offers = fw.offers ∧
    (touchRereg fw st.now).tasks = fw.tasks := by
  refine ⟨?_, rfl, rfl, rfl⟩
  simp [reregisterFrameworkRegistered, hfw, hsender]

/-- Framework record for the C8 witness. -/
def c8Framework : Fw8 :=
  { pid := 10, offers := [100], tasks := [3], reregisteredTime := 0,
    connected := true, active := true }

/-- Master state for the C8 witness. -/
def c8State : Rereg8State :=
  { registered := [(1, c8Framework)], now := 5 }

/-- C8 witness: a non-failover re-registration of framework 1 from the
foreign address 99 is rejected with "Framework failed over". -/
theorem C8_reregister_reject_witness :
    reregisterFrameworkRegistered c8State 99 1 false =
      ({ c8State with
         registered := aupdate c8State.registered 1 (touchRereg c8Framework 5) },
       .errorFrameworkFailedOver 99 "Framework failed over") :=
  (C8_reregister_reject c8State 99 1 c8Framework (by decide) (by decide)).1

/-- The master flags read by `Master::recoveredSlavesTimeout`: the
removal-limit percentage (`recovery_slave_removal_limit`, parsed from a
"NN%" string) and `registry_strict`. -/
structure RecoveryFlags where
  recoverySlaveRemovalLimitPercent : ℚ
  registryStrict : Bool
deriving DecidableEq, Repr

/-- The outcome of the re-registration timeout: whether the master exited
(EXIT(1)), the resulting slave lifecycle sets, and the slave ids for
which a Registrar RemoveSlave operation was applied. -/
structure RecoveredTimeoutResult where
  exited : Bool
  slaves : SlavesState
  registrarRemovals : List Nat
deriving DecidableEq, Repr

/-- One iteration of the removal loop of `Master::recoveredSlavesTimeout`
(master.cpp:1114-1147): a registry slave still in the recovered set is
erased from it, marked as removing when the registry is strict, and
removed via the Registrar. -/
def stepRemove (flags : RecoveryFlags) (acc : RecoveredTimeoutResult)
    (id : Nat) : RecoveredTimeoutResult :=
  if acc.slaves.recovered.contains id then
    let removing2 := if flags.registryStrict then hsInsert acc.slaves.removing id else acc.slaves.removing
    let slaves2 := { acc.slaves with recovered := hsErase acc.slaves.recovered id, removing := removing2 }
    { acc with slaves := slaves2, registrarRemovals := acc.registrarRemovals ++ [id] }
  else acc

/-- The removal loop over the registry slaves. -/
def removeLoop (flags : RecoveryFlags) (l : List Nat)
    (acc : RecoveredTimeoutResult) : RecoveredTimeoutResult :=
  match l with
  | [] => acc
  | id :: rest => removeLoop flags rest (stepRemove flags acc id)

/-- `Master::recoveredSlavesTimeout` (master.cpp:1082-1148). The double
percentage comparison is embedded over the rationals; as in the source,
with an empty registry and an empty recovered set the removal percentage
(0/0, NaN in the source) does not exceed a non-negative limit. -/
def recoveredSlavesTimeout (flags : RecoveryFlags) (registrySlaves : List Nat)
    (slaves : SlavesState) : RecoveredTimeoutResult :=
  let limit : ℚ := flags.recoverySlaveRemovalLimitPercent / 100
  let removalPercentage : ℚ :=
    (slaves.recovered.length : ℚ) / (registrySlaves.length : ℚ)
  if removalPercentage > limit then
    { exited := true, slaves := slaves, registrarRemovals := [] }
  else
    removeLoop flags registrySlaves
      { exited := false, slaves := slaves, registrarRemovals := [] }

/-- A removal step keeps the exited flag. -/
theorem stepRemove_exited (flags : RecoveryFlags)
    (acc : RecoveredTimeoutResult) (id : Nat) :
    (stepRemove flags acc id).exited = acc.exited := by
  unfold stepRemove
  by_cases h : id ∈ acc.slaves.recovered <;> simp [h]

/-- A removal step keeps previously recorded removals. -/
theorem stepRemove_removals_sub (flags : RecoveryFlags)
    (acc : RecoveredTimeoutResult) (id x : Nat)
    (hx : x ∈ acc.registrarRemovals) :
    x ∈ (stepRemove flags acc id).registrarRemovals := by
  unfold stepRemove
  by_cases h : id ∈ acc.slaves.recovered <;> simp [h, hx]

/-- A removal step only erases from the recovered set. -/
theorem stepRemove_recovered_sub (flags : RecoveryFlags)
    (acc : RecoveredTimeoutResult) (id x : Nat)
    (hx : x ∈ (stepRemove flags acc id).slaves.recovered) :
    x ∈ acc.slaves.recovered := by
  unfold stepRemove at hx
  by_cases h : id ∈ acc.slaves.recovered
  · simp [h, hsErase] at hx
    exact hx.1
  · simpa [h] using hx

/-- A removal step on a recovered registry slave records the Registrar
removal and erases the slave from the recovered set. -/
theorem stepRemove_removes (flags : RecoveryFlags)
    (acc : RecoveredTimeoutResult) (id : Nat)
    (hrec : id ∈ acc.slaves.recovered) :
    id ∈ (stepRemove flags acc id).registrarRemovals ∧
      id ∉ (stepRemove flags acc id).slaves.recovered := by
  unfold stepRemove
  simp [hrec, hsErase]

/-- A removal step for a different id keeps a recovered member. -/
theorem stepRemove_keeps (flags : RecoveryFlags)
    (acc : RecoveredTimeoutResult) (id x : Nat)
    (hx : x ∈ acc.slaves.recovered) (hne : x ≠ id) :
    x ∈ (stepRemove flags acc id).slaves.recovered := by
  unfold stepRemove
  by_cases h : id ∈ acc.slaves.recovered <;> simp [h, hsErase, hx, hne]

/-- The loop never changes the exited flag. -/
theorem removeLoop_exited (flags : RecoveryFlags) (l : List Nat)
    (acc : RecoveredTimeoutResult) :
    (removeLoop flags l acc).exited = acc.exited := by
  induction l generalizing acc with
  | nil => rfl
  | cons id rest ih =>
    rw [removeLoop, ih, stepRemove_exited]

/-- Removals recorded in the accumulator survive the loop. -/
theorem removeLoop_removals_mono (flags : RecoveryFlags) (l : List Nat)
    (acc : RecoveredTimeoutResult) (x : Nat)
    (hx : x ∈ acc.registrarRemovals) :
    x ∈ (removeLoop flags l acc).registrarRemovals := by
  induction l generalizing acc with
  | nil => exact hx
  | cons id rest ih =>
    rw [removeLoop]
    exact ih _ (stepRemove_removals_sub flags acc id x hx)

/-- The loop only erases from the recovered set: a member of the result
was a member of the accumulator. -/
theorem removeLoop_recovered_shrinks (flags : RecoveryFlags) (l : List Nat)
    (acc : RecoveredTimeoutResult) (x : Nat)
    (hx : x ∈ (removeLoop flags l acc).slaves.recovered) :
    x ∈ acc.slaves.recovered := by
  induction l generalizing acc with
  | nil => exact hx
  | cons id rest ih =>
    rw [removeLoop] at hx
    exact stepRemove_recovered_sub flags acc id x (ih _ hx)

/-- A registry slave still in the recovered set is removed by the loop
and no longer recovered afterwards. -/
theorem removeLoop_removes (flags : RecoveryFlags) (l : List Nat)
    (acc : RecoveredTimeoutResult) (id : Nat)
    (hmem : id ∈ l) (hrec : id ∈ acc.slaves.recovered) :
    id ∈ (removeLoop flags l acc).registrarRemovals ∧
      id ∉ (removeLoop flags l acc).slaves.recovered := by
  induction l generalizing acc with
  | nil => cases hmem
  | cons h2 rest ih =>
    rw [removeLoop]
    by_cases heq : h2 = id
    · subst heq
      have hstep := stepRemove_removes flags acc h2 hrec
      refine ⟨removeLoop_removals_mono flags rest _ h2 hstep.1, ?_⟩
      intro habs
      exact hstep.2 (removeLoop_recovered_shrinks flags rest _ h2 habs)
    · have hmem2 : id ∈ rest := by
        rcases List.mem_cons.mp hmem with h | h
        · exact absurd h.symm heq
        · exact h
      exact ih _ hmem2
        (stepRemove_keeps flags acc h2 id hrec (fun h => heq h.symm))

/-- C9: when the re-registration timer fires, if the fraction of registry
slaves still in the recovered set exceeds the configured removal-limit
percentage the master exits with a non-zero code without removing any
slave; otherwise the master does not exit and every recovered slave that
has not re-registered is removed via a Registrar RemoveSlave operation
and erased from the recovered set. -/
theorem C9_recoveredSlavesTimeout (flags : RecoveryFlags)
    (registrySlaves : List Nat) (slaves : SlavesState) :
    ((slaves.recovered.length : ℚ) / (registrySlaves.length : ℚ) >
        flags.recoverySlaveRemovalLimitPercent / 100 →
      recoveredSlavesTimeout flags registrySlaves slaves =
        { exited := true, slaves := slaves, registrarRemovals := [] }) ∧
    (¬ ((slaves.recovered.length : ℚ) / (registrySlaves.length : ℚ) >
        flags.recoverySlaveRemovalLimitPercent / 100) →
      (recoveredSlavesTimeout flags registrySlaves slaves).exited = false ∧
      ∀ id, id ∈ registrySlaves → id ∈ slaves.recovered →
        id ∈ (recoveredSlavesTimeout flags registrySlaves
          slaves).registrarRemovals ∧
        id ∉ (recoveredSlavesTimeout flags registrySlaves
          slaves).slaves.recovered) := by
  constructor
  · intro hgt
    simp [recoveredSlavesTimeout, hgt]
  · intro hle
    constructor
    · simp only [recoveredSlavesTimeout, if_neg hle]
      exact removeLoop_exited flags registrySlaves _
    · intro id hmem hrec
      simp only [recoveredSlavesTimeout, if_neg hle]
      exact removeLoop_removes flags registrySlaves _ id hmem hrec

/-- Lifecycle state for the C9 witness: slaves 1 and 2 recovered from the
registry, slave 1 re-registered in time. -/
def c9Slaves : SlavesState :=
  { recovered := [2]
    reregistering := []
    registered := [1]
    removing := []
    removed := { capacity := 32, entries := [] } }

/-- Flags for the C9 witness: a 50 percent removal limit, non-strict
registry. -/
def c9Flags : RecoveryFlags :=
  { recoverySlaveRemovalLimitPercent := 50, registryStrict := false }

/-- C9 witness: with a 50 percent limit and one of two registry slaves
still recovered, the master does not exit, removes slave 2 via the
Registrar and erases it from the recovered set. -/
theorem C9_recoveredSlavesTimeout_witness :
    (recoveredSlavesTimeout c9Flags [1, 2] c9Slaves).exited = false ∧
    2 ∈ (recoveredSlavesTimeout c9Flags [1, 2] c9Slaves).registrarRemovals ∧
    2 ∉ (recoveredSlavesTimeout c9Flags [1, 2] c9Slaves).slaves.recovered := by
  have h := (C9_recoveredSlavesTimeout c9Flags [1, 2] c9Slaves).2
    (by norm_num [c9Slaves, c9Flags])
  exact ⟨h.1, (h.2 2 (by decide) (by decide)).1, (h.2 2 (by decide) (by decide)).2⟩

/-- In-place modification of one entry of an association list. -/
def amodify {α β : Type} [DecidableEq α] (l : List (α × β)) (k : α)
    (g : β → β) : List (α × β) :=
  match l with
  | [] => []
  | (a, b) :: rest =>
    if a = k then (a, g b) :: amodify rest k g
    else (a, b) :: amodify rest k g

/-- Looking up the modified key yields the modified value. -/
theorem alookup_amodify_self {α β : Type} [DecidableEq α]
    (l : List (α × β)) (k : α) (g : β → β) :
    alookup (amodify l k g) k = (alookup l k).map g := by
  induction l with
  | nil => rfl
  | cons p rest ih =>
    obtain ⟨a, b⟩ := p
    by_cases h : a = k
    · subst h
      simp [amodify, alookup]
    · simp [amodify, alookup, h, ih]

/-- Looking up another key is unaffected by the modification. -/
theorem alookup_amodify_other {α β : Type} [DecidableEq α]
    (l : List (α × β)) (k k2 : α) (g : β → β) (hne : k2 ≠ k) :
    alookup (amodify l k g) k2 = alookup l k2 := by
  induction l with
  | nil => rfl
  | cons p rest ih =>
    obtain ⟨a, b⟩ := p
    by_cases h : a = k
    · subst h
      simp [amodify, alookup, Ne.symm hne, ih]
    · by_cases h2 : a = k2
      · subst h2
        simp [amodify, alookup, h]
      · simp [amodify, alookup, h, h2, ih]

/-- The Framework fields read by `Master::offer`. -/
structure OfferFramework where
  active : Bool
  checkpoint : Bool
  offers : List Nat
deriving DecidableEq, Repr

/-- The Slave fields read by `Master::offer`. -/
structure OfferSlave where
  active : Bool
  connected : Bool
  checkpoint : Bool
  offers : List Nat
deriving DecidableEq, Repr

/-- The master state used by `Master::offer`: registered frameworks and
slaves, the offer-id counter, the offer index, the offer timers and
whether the `offer_timeout` flag is configured. Resource bundles are
opaque (embedded as Nat). -/
structure OfferState where
  frameworks : List (Nat × OfferFramework)
  slaves : List (Nat × OfferSlave)
  nextOfferId : Nat
  offers : List Nat
  offerTimers : List Nat
  offerTimeoutSet : Bool
deriving DecidableEq, Repr

/-- Externally visible actions of `Master::offer`:
`allocator->recoverResources` calls and the single `ResourceOffersMessage`
sent to the framework. -/
inductive OfferEvent where
  | recoverRes (frameworkId slaveId res : Nat)
  | sendOffers (frameworkId : Nat) (offerIds : List Nat)
deriving DecidableEq, Repr

/-- Result of `Master::offer`: final state, emitted actions in order, the
offer ids appended to the batch message, and whether the
`CHECK(slave->info.checkpoint() || !framework->info.checkpoint())`
(master.cpp:3892-3894) aborted the process. -/
structure OfferLoopResult where
  state : OfferState
  events : List OfferEvent
  created : List Nat
  crashed : Bool
deriving DecidableEq, Repr

/-- Offer creation for one slave (master.cpp:3931-3960): mint the next
OfferId, index the offer in the master's offer map and in both the
framework's and the slave's offer sets, and start an offer-timeout timer
when the flag is configured. -/
def addOfferForSlave (st : OfferState) (fId sId : Nat) : OfferState × Nat :=
  let oid := st.nextOfferId
  let frameworks2 := amodify st.frameworks fId (fun fw => { fw with offers := fw.offers ++ [oid] })
  let slaves2 := amodify st.slaves sId (fun sl => { sl with offers := sl.offers ++ [oid] })
  let timers2 := if st.offerTimeoutSet then st.offerTimers ++ [oid] else st.offerTimers
  ({ st with nextOfferId := oid + 1, offers := st.offers ++ [oid],
             frameworks := frameworks2, slaves := slaves2, offerTimers := timers2 }, oid)

/-- The per-slave loop of `Master::offer` (master.cpp:3880-3977). The
WITH_NETWORK_ISOLATOR max-executors block is conditionally compiled and
not part of the default build; it is not modelled. -/
def offerLoop (fId : Nat) (fwCheckpoint : Bool) (st : OfferState) :
    List (Nat × Nat) → OfferLoopResult
  | [] => { state := st, events := [], created := [], crashed := false }
  | (sId, res) :: rest =>
    match alookup st.slaves sId with
    | none =>
      -- Unknown slave: recover and continue.
      let r := offerLoop fId fwCheckpoint st rest
      { r with events := .recoverRes fId sId res :: r.events }
    | some sl =>
      if !(sl.checkpoint || !fwCheckpoint) then
        -- CHECK failure: the master process aborts on the spot.
        { state := st, events := [], created := [], crashed := true }
      else if !sl.active then
        -- Deactivated or disconnected slave: recover and continue.
        let r := offerLoop fId fwCheckpoint st rest
        { r with events := .recoverRes fId sId res :: r.events }
      else
        let step := addOfferForSlave st fId sId
        let r := offerLoop fId fwCheckpoint step.1 rest
        { r with created := step.2 :: r.created }

/-- `Master::offer` (master.cpp:3861-3987). -/
def masterOffer (st : OfferState) (fId : Nat) (resources : List (Nat × Nat)) :
    OfferLoopResult :=
  match alookup st.frameworks fId with
  | none =>
    { state := st, events := resources.map (fun p => .recoverRes fId p.1 p.2),
      created := [], crashed := false }
  | some fw =>
    if !fw.active then
      { state := st, events := resources.map (fun p => .recoverRes fId p.1 p.2),
        created := [], crashed := false }
    else
      let r := offerLoop fId fw.checkpoint st resources
      if r.crashed then r
      else if r.created.isEmpty then r
      else { r with events := r.events ++ [.sendOffers fId r.created] }

/-- State for the C7 counterexample: an active checkpointing framework
and a registered, active, non-checkpointing slave. -/
def c7State : OfferState :=
  { frameworks := [(1, { active := true, checkpoint := true, offers := [] })]
    slaves := [(2, { active := true, connected := true, checkpoint := false, offers := [] })]
    nextOfferId := 0
    offers := []
    offerTimers := []
    offerTimeoutSet := false }

/-- C7: counterexample. The claim says a non-checkpointing worker whose
resources are offered to a checkpointing framework has those resources
recovered and no offer created. The source instead asserts this case
impossible: the CHECK at master.cpp:3892-3894 aborts the master process,
and no `recoverResources` call is made. -/
theorem C7_counterexample :
    (masterOffer c7State 1 [(2, 100)]).crashed = true ∧
    (masterOffer c7State 1 [(2, 100)]).events = [] ∧
    (masterOffer c7State 1 [(2, 100)]).created = [] := by
  decide

/-- The per-slave loop emits only `recoverRes` events, never a
`sendOffers`. -/
theorem offerLoop_no_send (fId : Nat) (fwCheckpoint : Bool)
    (st : OfferState) (l : List (Nat × Nat)) :
    ∀ e ∈ (offerLoop fId fwCheckpoint st l).events,
      ∃ f s r, e = OfferEvent.recoverRes f s r := by
  induction l generalizing st with
  | nil => intro e he; cases he
  | cons p rest ih =>
    intro e he
    rw [offerLoop] at he
    rcases hsl : alookup st.slaves p.1 with _ | sl
    · rw [hsl] at he
      simp only [List.mem_cons] at he
      rcases he with h | h
      · exact ⟨fId, p.1, p.2, h⟩
      · exact ih st e h
    · rw [hsl] at he
      by_cases hchk : (sl.checkpoint || !fwCheckpoint) = false
      · simp only [hchk] at he
        simp at he
      · have hchk2 : (sl.checkpoint || !fwCheckpoint) = true := by
          revert hchk
          cases sl.checkpoint || !fwCheckpoint <;> simp
        simp only [hchk2, Bool.not_true, Bool.false_eq_true, if_false] at he
        by_cases hact : sl.active = false
        · simp only [hact, Bool.not_false, if_true, List.mem_cons] at he
          rcases he with h | h
          · exact ⟨fId, p.1, p.2, h⟩
          · exact ih _ e h
        · have hact2 : sl.active = true := by
            revert hact
            cases sl.active <;> simp
          simp only [hact2, Bool.not_true, Bool.false_eq_true, if_false] at he
          exact ih _ e he

/-- C7 (amended): for an offer callback for a registered active
framework, each unknown or inactive worker has its resources recovered
and no offer created; a registered, active, non-checkpointing worker
offered to a checkpointing framework makes the master abort via CHECK
(no recovery, no offer, and no further workers processed); each
remaining worker gets exactly one offer whose id is the freshly minted
`nextOfferId`, indexed in the master's offer map and in both the
framework's and the worker's offer sets, with an offer-timeout timer
exactly when configured; an unknown or inactive framework has all
resources recovered; and when the loop completes with at least one
created offer, all created offers are sent in a single ResourceOffers
message appended after the recovery events. -/
theorem C7_amended (st : OfferState) (fId : Nat) (fwCheckpoint : Bool)
    (sId res : Nat) (rest : List (Nat × Nat))
    (resources : List (Nat × Nat)) :
    (alookup st.slaves sId = none →
      offerLoop fId fwCheckpoint st ((sId, res) :: rest) =
        { offerLoop fId fwCheckpoint st rest with
          events := .recoverRes fId sId res ::
            (offerLoop fId fwCheckpoint st rest).events }) ∧
    (∀ sl, alookup st.slaves sId = some sl →
      (sl.checkpoint || !fwCheckpoint) = false →
      offerLoop fId fwCheckpoint st ((sId, res) :: rest) =
        { state := st, events := [], created := [], crashed := true }) ∧
    (∀ sl, alookup st.slaves sId = some sl →
      (sl.checkpoint || !fwCheckpoint) = true → sl.active = false →
      offerLoop fId fwCheckpoint st ((sId, res) :: rest) =
        { offerLoop fId fwCheckpoint st rest with
          events := .recoverRes fId sId res ::
            (offerLoop fId fwCheckpoint st rest).events }) ∧
    (∀ sl, alookup st.slaves sId = some sl →
      (sl.checkpoint || !fwCheckpoint) = true → sl.active = true →
      offerLoop fId fwCheckpoint st ((sId, res) :: rest) =
        { offerLoop fId fwCheckpoint (addOfferForSlave st fId sId).1 rest with
          created := st.nextOfferId ::
            (offerLoop fId fwCheckpoint (addOfferForSlave st fId sId).1
              rest).created }) ∧
    ((addOfferForSlave st fId sId).2 = st.nextOfferId ∧
      (addOfferForSlave st fId sId).1.nextOfferId = st.nextOfferId + 1 ∧
      (addOfferForSlave st fId sId).1.offers =
        st.offers ++ [st.nextOfferId] ∧
      ((∀ o ∈ st.offers, o < st.nextOfferId) →
        st.nextOfferId ∉ st.offers) ∧
      alookup (addOfferForSlave st fId sId).1.frameworks fId =
        (alookup st.frameworks fId).map
          (fun fw => { fw with offers := fw.offers ++ [st.nextOfferId] }) ∧
      alookup (addOfferForSlave st fId sId).1.slaves sId =
        (alookup st.slaves sId).map
          (fun sl => { sl with offers := sl.offers ++ [st.nextOfferId] }) ∧
      (addOfferForSlave st fId sId).1.offerTimers =
        (if st.offerTimeoutSet then st.offerTimers ++ [st.nextOfferId]
         else st.offerTimers)) ∧
    (alookup st.frameworks fId = none →
      masterOffer st fId resources =
        { state := st,
          events := resources.map (fun p => .recoverRes fId p.1 p.2),
          created := [], crashed := false }) ∧
    (∀ fw, alookup st.frameworks fId = some fw → fw.active = false →
      masterOffer st fId resources =
        { state := st,
          events := resources.map (fun p => .recoverRes fId p.1 p.2),
          created := [], crashed := false }) ∧
    (∀ fw, alookup st.frameworks fId = some fw → fw.active = true →
      (masterOffer st fId resources).crashed = false →
      (masterOffer st fId resources).created ≠ [] →
      ∃ pre, (masterOffer st fId resources).events =
          pre ++ [.sendOffers fId (masterOffer st fId resources).created] ∧
        ∀ e ∈ pre, ∃ f s r, e = OfferEvent.recoverRes f s r) := by
  refine ⟨?_, ?_, ?_, ?_, ⟨rfl, rfl, rfl, ?_, ?_, ?_, rfl⟩, ?_, ?_, ?_⟩
  · intro hsl
    rw [offerLoop, hsl]
  · intro sl hsl hchk
    rw [offerLoop, hsl]
    simp [hchk]
  · intro sl hsl hchk hact
    rw [offerLoop, hsl]
    simp [hchk, hact]
  · intro sl hsl hchk hact
    rw [offerLoop, hsl]
    simp [hchk, hact, addOfferForSlave]
  · intro hbound hmem
    exact absurd (hbound _ hmem) (lt_irrefl _)
  · simp only [addOfferForSlave]
    exact alookup_amodify_self st.frameworks fId _
  · simp only [addOfferForSlave]
    exact alookup_amodify_self st.slaves sId _
  · intro hfw
    rw [masterOffer, hfw]
  · intro fw hfw hact
    rw [masterOffer, hfw]
    simp [hact]
  · intro fw hfw hact hcr hne
    rw [masterOffer, hfw] at hcr hne ⊢
    simp only [hact, Bool.not_true, Bool.false_eq_true, if_false] at hcr hne ⊢
    by_cases hc : (offerLoop fId fw.checkpoint st resources).crashed = true
    · simp [hc] at hcr
    · have hc2 : (offerLoop fId fw.checkpoint st resources).crashed = false := by
        revert hc
        cases (offerLoop fId fw.checkpoint st resources).crashed <;> simp
      simp only [hc2, Bool.false_eq_true, if_false] at hne ⊢
      by_cases hemp : (offerLoop fId fw.checkpoint st resources).created.isEmpty = true
      · simp only [hemp, if_true] at hne
        rw [List.isEmpty_iff] at hemp
        exact absurd hemp hne
      · have hemp2 : (offerLoop fId fw.checkpoint st resources).created.isEmpty = false := by
          revert hemp
          cases (offerLoop fId fw.checkpoint st resources).created.isEmpty <;> simp
        simp only [hemp2, Bool.false_eq_true, if_false]
        refine ⟨(offerLoop fId fw.checkpoint st resources).events, rfl, ?_⟩
        exact offerLoop_no_send fId fw.checkpoint st resources

/-- C7 amended, witness: the loop of the amended theorem instantiated at
an unknown slave recovers the resources and continues. -/
theorem C7_amended_witness :
    offerLoop 1 false c7State [(9, 55)] =
      { offerLoop 1 false c7State [] with
        events := .recoverRes 1 9 55 :: (offerLoop 1 false c7State []).events } :=
  (C7_amended c7State 1 false 9 55 [] []).1 (by decide)

/-- Volume fields checked by the DiskInfo validator: the access mode and
whether a host path is set. -/
structure VolumeInfo where
  readOnly : Bool
  hasHostPath : Bool
deriving DecidableEq, Repr

/-- DiskInfo: optional persistence id and optional volume. -/
structure DiskInfo where
  persistenceId : Option String
  volume : Option VolumeInfo
deriving DecidableEq, Repr

/-- Modelled from the spec: the Resources algebra lives in
src/common/resources.cpp which is not under src/. Spec section 3: a
set-like algebra over (name, role, value) triples where scalars are
summed within a (name, role) and no scalar is negative; persistent disks
carry a persistence id scoped by role. The set- and range-valued
resources are not used by the launch-pipeline claims and are reduced to
scalars. -/
structure Resource where
  name : String
  role : String
  scalar : Int
  disk : Option DiskInfo
deriving DecidableEq, Repr

/-- A resource bundle. -/
abbrev Resources := List Resource

/-- Total scalar held under one (name, role, disk) key. -/
def sumScalar (rs : Resources) (n ro : String) (d : Option DiskInfo) : Int :=
  (rs.filter (fun r => decide (r.name = n ∧ r.role = ro ∧ r.disk = d))).foldl
    (fun acc r => acc + r.scalar) 0

/-- Modelled from the spec: `Resources::contains` as summed-scalar
domination per (name, role, disk) key. -/
def containsRes (super sub : Resources) : Bool :=
  sub.all (fun r =>
    decide (sumScalar sub r.name r.role r.disk ≤
      sumScalar super r.name r.role r.disk))

/-- The persistent-disk resources of a bundle
(`Resources::persistentDisks`). -/
def persistentDisks (rs : Resources) : Resources :=
  rs.filter (fun r =>
    match r.disk with
    | some d => d.persistenceId.isSome
    | none => false)

/-- The persistence id of a resource, when it is a persistent disk. -/
def diskPid (r : Resource) : Option String :=
  match r.disk with
  | some d => d.persistenceId
  | none => none

/-- Modelled from the spec: `Resources::validate`; within the scalar
model the invariant is that no scalar is negative. -/
def resourcesValidate (rs : Resources) : Option String :=
  if rs.any (fun r => decide (r.scalar < 0)) then
    some "negative scalar resource"
  else none

/-- Subtract a scalar amount from the plain (non-disk) entries of one
(name, role), clamping at zero as the spec requires. -/
def subtractPlain (rs : Resources) (n ro : String) (amt : Int) : Resources :=
  match rs with
  | [] => []
  | r :: rest =>
    if r.name = n ∧ r.role = ro ∧ r.disk = none then
      if amt ≤ r.scalar then { r with scalar := r.scalar - amt } :: rest
      else { r with scalar := 0 } :: subtractPlain rest n ro (amt - r.scalar)
    else r :: subtractPlain rest n ro amt

/-- Modelled from the spec: `Resources::AcquirePersistentDisk`
(spec section 4.9): convert plain disk scalar of the disk's role into the
persistent disk; fail when the offered bundle has too little. -/
def acquirePersistentDisk (disk : Resource) (rs : Resources) :
    Except String Resources :=
  if disk.scalar ≤ sumScalar rs disk.name disk.role none then
    .ok (subtractPlain rs disk.name disk.role disk.scalar ++ [disk])
  else .error "insufficient scalar resources to acquire persistent disk"

/-- `Resources::CompositeTransformation` application: acquisitions in
order, first failure aborts. -/
def applyTransformations (disks : Resources) (rs : Resources) :
    Except String Resources :=
  match disks with
  | [] => .ok rs
  | d :: rest =>
    match acquirePersistentDisk d rs with
    | .ok rs2 => applyTransformations rest rs2
    | .error e => .error e

/-- The ExecutorInfo fields read by the validators. Byte-for-byte
equality of the source protobuf becomes structural equality. -/
structure ExecutorInfo where
  executorId : String
  frameworkId : Option Nat
  resources : Resources
deriving DecidableEq, Repr

/-- The TaskInfo fields read by the launch pipeline. -/
structure TaskInfo where
  taskId : String
  slaveId : Nat
  resources : Resources
  executor : Option ExecutorInfo
  hasCommand : Bool
deriving DecidableEq, Repr

/-- The Framework fields read by the task validators and `addTask`:
id, checkpoint flag, launched task ids and pending task ids. -/
structure LaunchFramework where
  id : Nat
  checkpoint : Bool
  taskIds : List String
  pendingTasks : List String
deriving DecidableEq, Repr

/-- The Slave fields read by the task validators and `addTask`. -/
structure LaunchSlave where
  id : Nat
  checkpoint : Bool
  executors : List (Nat × List ExecutorInfo)
deriving DecidableEq, Repr

/-- `Slave::executors[frameworkId][executorId]` lookup. -/
def slaveGetLaunchExecutor (sl : LaunchSlave) (fwId : Nat)
    (execId : String) : Option ExecutorInfo :=
  match alookup sl.executors fwId with
  | some l => l.find? (fun e => e.executorId = execId)
  | none => none

/-- `Slave::hasExecutor(frameworkId, executorId)`. -/
def slaveHasLaunchExecutor (sl : LaunchSlave) (fwId : Nat)
    (execId : String) : Bool :=
  (slaveGetLaunchExecutor sl fwId execId).isSome

/-- `invalid(c)` of the TaskID and persistence-id validators
(master.cpp:2005-2008): control characters, slash and backslash. -/
def invalidChar (c : Char) : Bool :=
  decide (c.toNat < 32) || decide (c.toNat = 127) || decide (c = '/') ||
    decide (c = '\\')

/-- The common shape of a `TaskInfoValidator`. -/
abbrev TaskValidator :=
  TaskInfo → LaunchFramework → LaunchSlave → Resources → Resources →
    Option String

/-- `TaskIDValidator` (master.cpp:1826-1848). -/
def taskIDValidator : TaskValidator := fun task _ _ _ _ =>
  if task.taskId.toList.any invalidChar then
    some ("TaskID " ++ task.taskId ++ " contains invalid characters")
  else none

/-- `SlaveIDValidator` (master.cpp:1852-1869). -/
def slaveIDValidator : TaskValidator := fun task _ slave _ _ =>
  if task.slaveId ≠ slave.id then
    some "Task uses invalid slave while another slave is expected"
  else none

/-- `UniqueTaskIDValidator` (master.cpp:1876-1893). -/
def uniqueTaskIDValidator : TaskValidator := fun task framework _ _ _ =>
  if task.taskId ∈ framework.taskIds then
    some ("Task has duplicate ID: " ++ task.taskId)
  else none

/-- `CheckpointValidator` (master.cpp:2198-2215). -/
def checkpointValidator : TaskValidator := fun _ framework slave _ _ =>
  if framework.checkpoint && !slave.checkpoint then
    some "Task asked to be checkpointed but slave has checkpointing disabled"
  else none

/-- `ExecutorInfoValidator` (master.cpp:2135-2193). -/
def executorInfoValidator : TaskValidator := fun task framework slave _ _ =>
  if task.executor.isSome = task.hasCommand then
    some "Task should have at least one (but not both) of CommandInfo or ExecutorInfo present"
  else
    match task.executor with
    | none => none
    | some e =>
      if e.frameworkId.isNone then
        some "Task has invalid ExecutorInfo: missing field framework_id"
      else if e.frameworkId ≠ some framework.id then
        some "ExecutorInfo has an invalid FrameworkID"
      else
        match slaveGetLaunchExecutor slave framework.id e.executorId with
        | some existing =>
          if existing ≠ e then
            some "Task has invalid ExecutorInfo (existing ExecutorInfo with same ExecutorID is not compatible)"
          else none
        | none => none

/-- `validateDiskInfo` (master.cpp:1973-2003). -/
def validateDiskInfo (r : Resource) : Option String :=
  match r.disk with
  | none => none
  | some d =>
    match d.persistenceId with
    | some pid =>
      if r.role = "*" then
        some "Persistent disk volume is disallowed for the unreserved role"
      else
        match d.volume with
        | none => some "Persistent disk should specify a volume"
        | some v =>
          if v.readOnly then
            some "Read-only volume is not supported for DiskInfo"
          else if v.hasHostPath then
            some "Volume in DiskInfo should not have host_path set"
          else if pid.toList.any invalidChar then
            some ("Persistence ID " ++ pid ++ " contains invalid characters")
          else none
    | none =>
      match d.volume with
      | some _ => some "Non-persistent disk volume is not supported"
      | none => some "DiskInfo is set but empty"

/-- The DiskInfo walk of `ResourceValidator` (master.cpp:1919-1967):
per-resource DiskInfo validation and rejection of duplicated
(role, persistence id) pairs, threading the set of pairs seen. -/
def checkDisks (rs : Resources) (who : String)
    (seen : List (String × String)) :
    Option String × List (String × String) :=
  match rs with
  | [] => (none, seen)
  | r :: rest =>
    match r.disk with
    | none => checkDisks rest who seen
    | some d =>
      match validateDiskInfo r with
      | some e => (some (who ++ " uses invalid DiskInfo: " ++ e), seen)
      | none =>
        match d.persistenceId with
        | some pid =>
          if (r.role, pid) ∈ seen then
            (some (who ++ " uses duplicated persistence ID " ++ pid), seen)
          else checkDisks rest who ((r.role, pid) :: seen)
        | none => checkDisks rest who seen

/-- `ResourceValidator` (master.cpp:1897-1971). -/
def resourceValidator : TaskValidator := fun task _ _ _ _ =>
  match resourcesValidate task.resources with
  | some e => some ("Task uses invalid resources: " ++ e)
  | none =>
    match checkDisks task.resources "Task" [] with
    | (some e, _) => some e
    | (none, seen) =>
      match task.executor with
      | none => none
      | some ex =>
        match resourcesValidate ex.resources with
        | some e => some ("Executor uses invalid resources: " ++ e)
        | none =>
          match checkDisks ex.resources "Executor" seen with
          | (some e, _) => some e
          | (none, _) => none

/-- `ResourceUsageValidator` (master.cpp:2015-2130). -/
def resourceUsageValidator : TaskValidator :=
  fun task framework slave offered used =>
  if task.resources.isEmpty then some "Task uses no resources"
  else
    let executorResources :=
      match task.executor with
      | some e => e.resources
      | none => []
    let execId :=
      match task.executor with
      | some e => e.executorId
      | none => ""
    let resources :=
      if slaveHasLaunchExecutor slave framework.id execId then task.resources
      else task.resources ++ executorResources
    -- Implicit persistent-disk acquisitions, with the conflicting
    -- persistence-id check (master.cpp:2082-2103).
    let conflict := (persistentDisks resources).find? (fun d =>
      !containsRes offered [d] &&
        (persistentDisks offered).any (fun o =>
          decide (o.role = d.role) && decide (diskPid o = diskPid d)))
    match conflict with
    | some d =>
      some ("Duplicated persistence ID " ++ (diskPid d).getD "")
    | none =>
      let disksToAcquire :=
        (persistentDisks resources).filter (fun d => !containsRes offered [d])
      match applyTransformations disksToAcquire offered with
      | .error e => some ("Failed to acquire persistent disks: " ++ e)
      | .ok transformed =>
        if containsRes transformed (resources ++ used) then none
        else some "Task uses more resources than available"

/-- The declared validator order of `Master::validateTask`
(master.cpp:2511-2519). -/
def taskValidators : List TaskValidator :=
  [taskIDValidator, slaveIDValidator, uniqueTaskIDValidator,
   checkpointValidator, executorInfoValidator, resourceValidator,
   resourceUsageValidator]

/-- The validator loop of `Master::validateTask` (master.cpp:2526-2538):
invoke each validator in order, the first error aborts. -/
def runValidators (vs : List TaskValidator) (t : TaskInfo)
    (f : LaunchFramework) (s : LaunchSlave) (o u : Resources) :
    Option String :=
  match vs with
  | [] => none
  | v :: rest =>
    match v t f s o u with
    | some e => some e
    | none => runValidators rest t f s o u

/-- `Master::validateTask` (master.cpp:2495-2545). -/
def validateTask (t : TaskInfo) (f : LaunchFramework) (s : LaunchSlave)
    (o u : Resources) : Option String :=
  runValidators taskValidators t f s o u

/-- Externally visible per-task actions of `Master::_launchTasks`: a
TASK_ERROR or TASK_LOST status update, the `RunTaskMessage` to the slave,
or the `CHECK_SOME` abort on an unappliable transformation (asserted
unreachable after validation, master.cpp:2798-2800). -/
inductive LaunchOutput where
  | statusUpdate (taskIdValue : String) (state : TaskState)
      (reason : UpdateReason)
  | runTask (taskIdValue : String)
  | checkFailed
deriving DecidableEq, Repr

/-- The state threaded through the per-task loop of
`Master::_launchTasks` (master.cpp:2698-2828). -/
structure LaunchLoopState where
  framework : LaunchFramework
  slave : LaunchSlave
  transformedOffered : Resources
  used : Resources
deriving DecidableEq, Repr

/-- `framework->pendingTasks.erase(task.task_id())` (master.cpp:2718). -/
def launchErasePending (fw : LaunchFramework) (tid : String) :
    LaunchFramework :=
  { fw with pendingTasks := fw.pendingTasks.filter (fun t => t ≠ tid) }

/-- `slave->addExecutor` and `framework->addExecutor` bookkeeping. -/
def addExecutorToSlave (sl : LaunchSlave) (fwId : Nat) (e : ExecutorInfo) :
    LaunchSlave :=
  match alookup sl.executors fwId with
  | some _ => { sl with executors := amodify sl.executors fwId (fun l => l ++ [e]) }
  | none => { sl with executors := sl.executors ++ [(fwId, [e])] }

/-- `Master::addTask` (master.cpp:2582-2638): the resources consumed
(task plus executor when the executor is new on this slave) and the
updated framework and slave bookkeeping. -/
def launchAddTask (task : TaskInfo) (fw : LaunchFramework)
    (sl : LaunchSlave) : Resources × LaunchFramework × LaunchSlave :=
  let execId :=
    match task.executor with
    | some e => e.executorId
    | none => ""
  let isNewExecutor :=
    task.executor.isSome && !slaveHasLaunchExecutor sl fw.id execId
  let consumed :=
    if isNewExecutor then
      task.resources ++
        (match task.executor with
         | some e => e.resources
         | none => [])
    else task.resources
  let sl2 :=
    match task.executor with
    | some e => if isNewExecutor then addExecutorToSlave sl fw.id e else sl
    | none => sl
  let fw2 := { fw with taskIds := fw.taskIds ++ [task.taskId] }
  (consumed, fw2, sl2)

/-- One iteration of the `_launchTasks` loop (master.cpp:2707-2828):
erase the task from pending, check the authorization result, validate,
and launch when still pending. -/
def launchStep (st0 : LaunchLoopState) (authorized : Bool)
    (task : TaskInfo) : LaunchLoopState × List LaunchOutput :=
  let pending := st0.framework.pendingTasks.contains task.taskId
  let st := { st0 with framework := launchErasePending st0.framework task.taskId }
  if !authorized then
    (st, [.statusUpdate task.taskId .taskError .reasonTaskUnauthorized])
  else
    match validateTask task st.framework st.slave st.transformedOffered
        st.used with
    | some _ =>
      (st, [.statusUpdate task.taskId .taskError .reasonTaskInvalid])
    | none =>
      if pending then
        let r := launchAddTask task st.framework st.slave
        let used2 := st.used ++ r.1
        let disks := (persistentDisks used2).filter
          (fun d => !containsRes st.transformedOffered [d])
        match applyTransformations disks st.transformedOffered with
        | .ok transformed2 =>
          ({ framework := r.2.1, slave := r.2.2,
             transformedOffered := transformed2, used := used2 },
           [.runTask task.taskId])
        | .error _ => (st, [.checkFailed])
      else (st, [])

/-- The `_launchTasks` loop over the batch, paired with the authorization
results. -/
def launchTasksLoop (st : LaunchLoopState) :
    List (Bool × TaskInfo) → LaunchLoopState × List LaunchOutput
  | [] => (st, [])
  | (auth, task) :: rest =>
    let r := launchStep st auth task
    let r2 := launchTasksLoop r.1 rest
    (r2.1, r.2 ++ r2.2)

/-- The loop of `Master::validateTask` succeeds iff every validator
succeeds. -/
theorem runValidators_none_iff (vs : List TaskValidator) (t : TaskInfo)
    (f : LaunchFramework) (s : LaunchSlave) (o u : Resources) :
    runValidators vs t f s o u = none ↔
      ∀ v ∈ vs, v t f s o u = none := by
  induction vs with
  | nil => simp [runValidators]
  | cons v rest ih =>
    cases hv : v t f s o u with
    | none => simp [runValidators, hv, ih]
    | some e => simp [runValidators, hv]

/-- The loop of `Master::validateTask` returns an error iff some
validator returns that error and every validator declared before it
succeeds: the declared order is respected and the first error aborts. -/
theorem runValidators_some_iff (vs : List TaskValidator) (t : TaskInfo)
    (f : LaunchFramework) (s : LaunchSlave) (o u : Resources) (e : String) :
    runValidators vs t f s o u = some e ↔
      ∃ pre v post, vs = pre ++ v :: post ∧
        (∀ w ∈ pre, w t f s o u = none) ∧ v t f s o u = some e := by
  induction vs with
  | nil =>
    simp only [runValidators]
    constructor
    · intro h; cases h
    · rintro ⟨pre, v, post, heq, -, -⟩
      cases pre <;> cases heq
  | cons v rest ih =>
    cases hv : v t f s o u with
    | some e2 =>
      simp only [runValidators, hv]
      constructor
      · intro h
        refine ⟨[], v, rest, rfl, by simp, ?_⟩
        rw [hv, h]
      · rintro ⟨pre, w, post, heq, hpre, hw⟩
        cases pre with
        | nil =>
          simp only [List.nil_append, List.cons.injEq] at heq
          rw [← heq.1, hv] at hw
          exact hw
        | cons p pre2 =>
          simp only [List.cons_append, List.cons.injEq] at heq
          have hp := hpre p (by simp)
          rw [heq.1] at hv
          rw [hp] at hv
          cases hv
    | none =>
      simp only [runValidators, hv]
      rw [ih]
      constructor
      · rintro ⟨pre, w, post, heq, hpre, hw⟩
        refine ⟨v :: pre, w, post, by rw [heq, List.cons_append], ?_, hw⟩
        intro x hx
        rcases List.mem_cons.mp hx with h | h
        · rw [h]; exact hv
        · exact hpre x h
      · rintro ⟨pre, w, post, heq, hpre, hw⟩
        cases pre with
        | nil =>
          simp only [List.nil_append, List.cons.injEq] at heq
          rw [← heq.1, hv] at hw
          cases hw
        | cons p pre2 =>
          simp only [List.cons_append, List.cons.injEq] at heq
          refine ⟨pre2, w, post, heq.2, ?_, hw⟩
          intro x hx
          exact hpre x (by simp [hx])

/-- C4: the task validators run in exactly the declared order (task id
characters, slave id, unique task id, checkpointing, ExecutorInfo,
resource and DiskInfo validity, resource usage against the transformed
offered resources minus the batch's already used resources); the first
validator returning an error aborts validation of that task; in the
batch loop a task failing validation yields exactly one TASK_ERROR
update with reason TASK_INVALID for that task, changes no resource
accounting (only its pending entry is erased), and the remaining tasks
of the batch are processed as before. -/
theorem C4_launch_validation (t : TaskInfo) (f : LaunchFramework)
    (s : LaunchSlave) (o u : Resources) (e : String)
    (st : LaunchLoopState) (rest : List (Bool × TaskInfo)) :
    (taskValidators = [taskIDValidator, slaveIDValidator,
       uniqueTaskIDValidator, checkpointValidator, executorInfoValidator,
       resourceValidator, resourceUsageValidator]) ∧
    (validateTask t f s o u = none ↔
      ∀ v ∈ taskValidators, v t f s o u = none) ∧
    (validateTask t f s o u = some e ↔
      ∃ pre v post, taskValidators = pre ++ v :: post ∧
        (∀ w ∈ pre, w t f s o u = none) ∧ v t f s o u = some e) ∧
    (validateTask t (launchErasePending st.framework t.taskId) st.slave
        st.transformedOffered st.used = some e →
      launchTasksLoop st ((true, t) :: rest) =
        ((launchTasksLoop
            { st with framework := launchErasePending st.framework t.taskId }
            rest).1,
         .statusUpdate t.taskId .taskError .reasonTaskInvalid ::
           (launchTasksLoop
             { st with framework := launchErasePending st.framework t.taskId }
             rest).2)) := by
  refine ⟨rfl, runValidators_none_iff taskValidators t f s o u,
    runValidators_some_iff taskValidators t f s o u e, ?_⟩
  intro hval
  simp [launchTasksLoop, launchStep, hval]

/-- A framework that already runs task T1, for the C4 witness. -/
def c4Framework : LaunchFramework :=
  { id := 1, checkpoint := false, taskIds := ["T1"], pendingTasks := ["T1"] }

/-- A slave matching the witness task. -/
def c4Slave : LaunchSlave :=
  { id := 2, checkpoint := false, executors := [] }

/-- A command task re-using the id T1. -/
def c4Task : TaskInfo :=
  { taskId := "T1", slaveId := 2,
    resources := [{ name := "cpus", role := "*", scalar := 1, disk := none }],
    executor := none, hasCommand := true }

/-- Loop state for the C4 witness. -/
def c4State : LaunchLoopState :=
  { framework := c4Framework, slave := c4Slave,
    transformedOffered :=
      [{ name := "cpus", role := "*", scalar := 4, disk := none }],
    used := [] }

/-- C4 witness: the duplicate-id task draws exactly one TASK_ERROR with
reason TASK_INVALID and the batch continues from the accounting-unchanged
state. -/
theorem C4_launch_validation_witness :
    launchTasksLoop c4State [(true, c4Task)] =
      ((launchTasksLoop
          { c4State with
            framework := launchErasePending c4State.framework "T1" } []).1,
       .statusUpdate "T1" .taskError .reasonTaskInvalid ::
         (launchTasksLoop
           { c4State with
             framework := launchErasePending c4State.framework "T1" } []).2) :=
  (C4_launch_validation c4Task c4Framework c4Slave [] []
      ("Task has duplicate ID: T1") c4State []).2.2.2 (by decide)

end MesosMaster
